import Mathlib

/-!
Shallow embedding of the YouTube-Metadata-Extractor core
(src/js/youtube-extractor.js and src/js/document-generator.js).

JS numbers are modelled as follows: integer-valued computations use Nat/Int;
`NaN` (which JS `parseInt`/`parseFloat` produce on unparseable input and which
propagates through arithmetic) is modelled by `Option` with `none` = NaN;
`parseFloat` mantissas use exact rationals (the JS engine uses binary doubles,
which coincide with the rational model on all values appearing here).
External collaborators (fetch, DOM, canvas, Date, Math.random) are modelled
as an explicit environment record.
-/

namespace YTX

/-- JS digit rendering for one decimal digit (0..9); arguments ≥ 9 render '9'
(never reached by `natDigits`, which only passes values < 10). -/
def digitChar : Nat → Char
  | 0 => '0' | 1 => '1' | 2 => '2' | 3 => '3' | 4 => '4'
  | 5 => '5' | 6 => '6' | 7 => '7' | 8 => '8' | _ => '9'

/-- Numeric value of a decimal digit character. -/
def digitVal (c : Char) : Nat := c.toNat - 48

/-- Value of a string of decimal digit characters (most significant first). -/
def digitsVal (ds : List Char) : Nat := ds.foldl (fun a c => 10 * a + digitVal c) 0

/-- Fueled decimal rendering of a natural number, most significant digit first.
Fuel-based so that the kernel can evaluate it; `natDigits` supplies ample fuel. -/
def natDigitsAux : Nat → Nat → List Char
  | 0, _ => []
  | fuel + 1, n =>
    if n < 10 then [digitChar n]
    else natDigitsAux fuel (n / 10) ++ [digitChar (n % 10)]

/-- Decimal rendering of a natural number (JS `Number.prototype.toString` on
non-negative integers). -/
def natDigits (n : Nat) : List Char := natDigitsAux (n + 1) n

/-- JS `String.prototype.padStart(2, '0')` applied to the decimal rendering of
`n` (as used by `formatDuration` on minute/second fields, always < 60). -/
def pad2 (n : Nat) : List Char :=
  if n < 10 then '0' :: natDigits n else natDigits n

/-- Maximal leading run of decimal digits, as a number; `none` when the run is
empty (JS `parseInt` returning NaN). -/
def leadDigits (cs : List Char) : Option Nat :=
  let ds := cs.takeWhile Char.isDigit
  if ds.isEmpty then none else some (digitsVal ds)

/-- JS `parseInt(str, 10)` on character lists: skip leading whitespace, an
optional sign, then the maximal digit run; NaN (`none`) when no digits. -/
def jsParseIntChars (cs : List Char) : Option Int :=
  let cs2 := cs.dropWhile Char.isWhitespace
  match cs2 with
  | [] => none
  | c :: rest =>
    if c = '-' then (leadDigits rest).map (fun v => -(v : Int))
    else if c = '+' then (leadDigits rest).map (fun v => (v : Int))
    else (leadDigits cs2).map (fun v => (v : Int))

/-- JS `parseInt(str, 10)` on strings. -/
def jsParseInt (s : String) : Option Int := jsParseIntChars s.data

/-- JS `String.prototype.split(':')` (note `"".split(':')` is `[""]`). -/
def splitColon : List Char → List (List Char)
  | [] => [[]]
  | c :: rest =>
    if c = ':' then [] :: splitColon rest
    else
      match splitColon rest with
      | [] => [[c]]
      | h :: t => (c :: h) :: t

/-- JS `String.prototype.trim()`. -/
def jsTrim (cs : List Char) : List Char :=
  ((cs.dropWhile Char.isWhitespace).reverse.dropWhile Char.isWhitespace).reverse

/-- JS `String.prototype.toUpperCase()` (ASCII behaviour suffices here). -/
def jsToUpper (cs : List Char) : List Char := cs.map Char.toUpper

/-- JS `str.replace(/\D/g, '')`: keep only decimal digits. -/
def stripNonDigits (cs : List Char) : List Char := cs.filter Char.isDigit

/-- JS `str.endsWith(c)` for a single character. -/
def jsEndsWith (cs : List Char) (c : Char) : Bool := cs.getLast? = some c

/-- JS `Math.floor` on the exact rational model. -/
def jsFloor (q : ℚ) : Int := ⌊q⌋

/-- JS `Math.round` (round half toward positive infinity). -/
def jsRound (q : ℚ) : Int := ⌊q + 1 / 2⌋

/-- Exponent part of a JS float literal: optional sign then digits; `none` when
the exponent prefix is not well-formed (parseFloat then ignores it). -/
def floatExp (cs : List Char) : Option Int :=
  match cs with
  | [] => none
  | c :: rest =>
    if c = '-' then (leadDigits rest).map (fun v => -(v : Int))
    else if c = '+' then (leadDigits rest).map (fun v => (v : Int))
    else (leadDigits cs).map (fun v => (v : Int))

/-- The components of a JS float literal: sign, integer-part value,
fraction-part value and length, and decimal exponent. -/
structure FloatRep where
  neg : Bool
  ip : Nat
  fp : Nat
  fpLen : Nat
  e : Int
deriving DecidableEq

/-- Structural part of JS `parseFloat`: leading whitespace, optional sign,
`digits [. digits] [E sign digits]`, longest valid prefix; `none` (NaN) when
no digits at all. -/
def jsParseFloatRep (cs : List Char) : Option FloatRep :=
  let cs2 := cs.dropWhile Char.isWhitespace
  let (neg, cs3) : Bool × List Char :=
    match cs2 with
    | c :: rest =>
      if c = '-' then (true, rest) else if c = '+' then (false, rest) else (false, cs2)
    | [] => (false, cs2)
  let ip := cs3.takeWhile Char.isDigit
  let cs4 := cs3.dropWhile Char.isDigit
  let (fp, cs5) : List Char × List Char :=
    match cs4 with
    | c :: rest =>
      if c = '.' then (rest.takeWhile Char.isDigit, rest.dropWhile Char.isDigit)
      else ([], cs4)
    | [] => ([], cs4)
  if ip.isEmpty ∧ fp.isEmpty then none
  else
    let e : Int :=
      match cs5 with
      | c :: rest =>
        if c = 'E' ∨ c = 'e' then (floatExp rest).getD 0 else 0
      | [] => 0
    some ⟨neg, digitsVal ip, digitsVal fp, fp.length, e⟩

/-- The rational value of a parsed float literal. -/
def floatVal (r : FloatRep) : ℚ :=
  (if r.neg then -1 else 1) * ((r.ip : ℚ) + (r.fp : ℚ) / (10 : ℚ) ^ r.fpLen)
    * (10 : ℚ) ^ r.e

/-- JS `parseFloat` on character lists, modelled with exact rationals. -/
def jsParseFloat (cs : List Char) : Option ℚ :=
  (jsParseFloatRep cs).map floatVal

/-- Search for the literal "PT" required by the regex
`/PT(\d+H)?(\d+M)?(\d+S)?/`; returns the characters after the first
occurrence, `none` when the string has no match (JS `match` returns null). -/
def findPT : List Char → Option (List Char)
  | [] => none
  | [_] => none
  | a :: b :: rest =>
    if a = 'P' ∧ b = 'T' then some rest else findPT (b :: rest)

/-- One optional regex group `(\d+X)?`: the maximal digit run must be non-empty
and immediately followed by `x`; otherwise the group fails and consumes
nothing (no backtracking can help, since a shorter digit run is followed by a
digit, not by `x`). -/
def ptGroup (x : Char) (cs : List Char) : Option Nat × List Char :=
  let ds := cs.takeWhile Char.isDigit
  let rest := cs.dropWhile Char.isDigit
  match ds, rest with
  | [], _ => (none, cs)
  | _, [] => (none, cs)
  | _, r :: rs => if r = x then (some (digitsVal ds), rs) else (none, cs)

/-- `parseDuration` (youtube-extractor.js:549): matches
`/PT(\d+H)?(\d+M)?(\d+S)?/` and combines the groups, absent groups counting 0.
When the regex does not match, the JS code dereferences `null` and throws a
TypeError; that crash is modelled as `none`. -/
def parseDuration (s : String) : Option Nat :=
  match findPT s.data with
  | none => none
  | some rest =>
    let (h, r1) := ptGroup 'H' rest
    let (m, r2) := ptGroup 'M' r1
    let (sec, _) := ptGroup 'S' r2
    some (h.getD 0 * 3600 + m.getD 0 * 60 + sec.getD 0)

/-- `parseDurationString` (youtube-extractor.js:560) on character lists:
split on ':', `parseInt` each part, then combine 3 parts as H:M:S, 2 parts as
M:S, and anything else as 0.  `none` is NaN (a non-numeric part). -/
def parseDurationChars (cs : List Char) : Option Int :=
  let parts := (splitColon cs).map jsParseIntChars
  match parts with
  | [a, b, c] => do
    let x ← a
    let y ← b
    let z ← c
    pure (x * 3600 + y * 60 + z)
  | [a, b] => do
    let x ← a
    let y ← b
    pure (x * 60 + y)
  | _ => some 0

/-- `parseDurationString` on strings. -/
def parseDurationString (s : String) : Option Int := parseDurationChars s.data

/-- `formatDuration` (youtube-extractor.js:575): `H:MM:SS`, or `M:SS` when the
hour component is zero. -/
def formatDuration (seconds : Nat) : String :=
  let hours := seconds / 3600
  let minutes := seconds % 3600 / 60
  let secs := seconds % 60
  if hours > 0 then
    String.mk (natDigits hours ++ ':' :: pad2 minutes ++ ':' :: pad2 secs)
  else
    String.mk (natDigits minutes ++ ':' :: pad2 secs)

/-- `parseCount` (youtube-extractor.js:588): trim + uppercase; a K/M/B suffix
scales a `parseFloat` mantissa by 1e3/1e6/1e9 with `Math.round` (NaN mantissa
propagates to a NaN result, modelled `none`); otherwise all non-digits are
stripped and the rest parsed, `|| 0` mapping NaN to 0. -/
def parseCount (s : String) : Option Int :=
  if s = "" then some 0
  else
    let str := jsToUpper (jsTrim s.data)
    if jsEndsWith str 'K' then
      (jsParseFloat str.dropLast).map (fun q => jsRound (q * 1000))
    else if jsEndsWith str 'M' then
      (jsParseFloat str.dropLast).map (fun q => jsRound (q * 1000000))
    else if jsEndsWith str 'B' then
      (jsParseFloat str.dropLast).map (fun q => jsRound (q * 1000000000))
    else
      some (((leadDigits (stripNonDigits str)).map (fun v => (v : Int))).getD 0)

/-! ## Pipeline data model (class YouTubeExtractor) -/

/-- One progress-callback invocation (the object literals passed to
`progressCallback`). -/
structure Progress where
  progress : Nat
  status : String
  processed : Nat
  total : Nat
  currentVideo : Option String
deriving DecidableEq

/-- One entry of `this.screenshots` (the object returned by
`captureVideoScreenshotWithExpandedDescription`). -/
structure Screenshot where
  videoId : String
  title : String
  imageUrl : String
deriving DecidableEq

/-- One entry of `this.videos`.  `views`/`likes` are `Option Int` because the
API path stores raw `parseInt` results, which can be NaN (`none`). -/
structure VideoData where
  videoId : String
  title : String
  duration : String
  views : Option Int
  likes : Option Int
  publishedDate : String
  durationSeconds : Int
deriving DecidableEq

/-- Intermediate result of `scrapeVideoDetails` / `getDemoVideoData`.
`durationSeconds` is `Option Int` because `parseDurationString` can produce
NaN; the caller applies `|| 0` before storing it. -/
structure ScrapedVideo where
  title : String
  views : Int
  likes : Int
  duration : String
  durationSeconds : Option Int
  publishedDate : String
deriving DecidableEq

/-- A playlist item from the API (`item.snippet.resourceId.videoId`,
`item.snippet.title`). -/
structure ApiItem where
  videoId : String
  title : String
deriving DecidableEq

/-- Fields of `fetchVideoDetails` used by the pipeline. -/
structure ApiDetails where
  duration : String
  publishedAt : String
deriving DecidableEq

/-- Fields of `fetchVideoStatistics` used by the pipeline
(`likeCount` may be absent: `statistics.likeCount || '0'`). -/
structure ApiStats where
  viewCount : String
  likeCount : Option String
deriving DecidableEq

/-- Raw text content found by the structural DOM queries of
`scrapeVideoDetails`; `none` means the selector matched nothing (or the
iframe access threw, which the code catches, keeping the defaults). -/
structure ScrapedPage where
  titleText : Option String
  viewsText : Option String
  likesText : Option String
  durationText : Option String
  dateText : Option String

/-- The external world of one run: network, DOM, canvas, Date and
Math.random.  `rng k` is the k-th value returned by `Math.random()`
(in `[0,1)`); `now` is `new Date().toISOString()` during the run;
`parseDate` abstracts the host `Date` parsing inside `parsePublishedDate`
(locale-dependent, no claim depends on it); `capture` abstracts the
canvas-composited screenshot data URL, `none` when capture errors. -/
structure Env where
  apiKey : String
  apiPlaylistItems : String → Except Unit (List ApiItem)
  apiVideoDetails : String → Except Unit ApiDetails
  apiVideoStats : String → Except Unit ApiStats
  scrapeIds : String → List String
  page : String → ScrapedPage
  capture : String → Option String
  parseDate : String → String
  rng : Nat → ℚ
  now : String

/-- The mutable instance fields of `YouTubeExtractor` during one run, plus the
sequence of emitted progress events and the Math.random cursor. -/
structure RunState where
  videos : List VideoData
  screenshots : List Screenshot
  totalDuration : Int
  events : List Progress
  rngIdx : Nat

/-- The object returned by `processPlaylist`. -/
structure ExtractResult where
  videos : List VideoData
  screenshots : List Screenshot
  totalDuration : Int

def initialRunState : RunState := ⟨[], [], 0, [], 0⟩

/-- Invoke the progress callback (recorded in emission order). -/
def emit (s : RunState) (e : Progress) : RunState :=
  { s with events := s.events ++ [e] }

/-- `getDemoVideoIds` (youtube-extractor.js:645). -/
def getDemoVideoIds : List String :=
  ["dQw4w9WgXcQ", "jNQXAC9IVRw", "9bZkp7q19f0", "kJQP7kiw5Fk", "OPf0YbXqDm0"]

/-- `getDemoVideoData` (youtube-extractor.js:656): a fixed table for the five
well-known ids; for any other id, a placeholder whose views/likes consume two
fresh `Math.random()` values (the returned cursor advances by 2). -/
def getDemoVideoData (env : Env) (videoId : String) (k : Nat) : ScrapedVideo × Nat :=
  if videoId = "dQw4w9WgXcQ" then
    (⟨"Rick Astley - Never Gonna Give You Up (Official Music Video)",
      1234567890, 12345678, "3:33", some 213, "2009-10-25T00:00:00Z"⟩, k)
  else if videoId = "jNQXAC9IVRw" then
    (⟨"Me at the zoo", 248000000, 12000000, "0:19", some 19,
      "2005-04-23T00:00:00Z"⟩, k)
  else if videoId = "9bZkp7q19f0" then
    (⟨"PSY - GANGNAM STYLE(강남스타일) M/V", 4600000000, 24000000, "4:13",
      some 253, "2012-07-15T00:00:00Z"⟩, k)
  else if videoId = "kJQP7kiw5Fk" then
    (⟨"Luis Fonsi - Despacito ft. Daddy Yankee", 8100000000, 50000000, "4:41",
      some 281, "2017-01-12T00:00:00Z"⟩, k)
  else if videoId = "OPf0YbXqDm0" then
    (⟨"Mark Ronson - Uptown Funk (Official Video) ft. Bruno Mars",
      4800000000, 25000000, "4:31", some 271, "2014-11-19T00:00:00Z"⟩, k)
  else
    (⟨"Vídeo " ++ videoId,
      jsFloor (env.rng k * 1000000),
      jsFloor (env.rng (k + 1) * 50000),
      "3:30", some 210, env.now⟩, k + 2)

/-- `parsePublishedDate` (youtube-extractor.js:605).  The host `Date` parsing
and the Portuguese month-table fallback are abstracted into `env.parseDate`
(host/locale dependent); the `!dateStr` early return is kept. -/
def parsePublishedDate (env : Env) (dateStr : String) : String :=
  if dateStr = "" then env.now else env.parseDate dateStr

/-- `scrapeVideoDetails` (youtube-extractor.js:339): structural extraction with
documented defaults, then demo-data substitution when the title is still the
placeholder. -/
def scrapeVideoDetails (env : Env) (videoId : String) (k : Nat) : ScrapedVideo × Nat :=
  let page := env.page videoId
  let title :=
    match page.titleText with
    | some t => String.mk (jsTrim t.data)
    | none => "Vídeo do YouTube"
  let views : Int :=
    match page.viewsText with
    | some t => ((jsParseIntChars (stripNonDigits (jsTrim t.data))).getD 0)
    | none => 0
  let likes : Int :=
    match page.likesText with
    | some t => (parseCount (String.mk (jsTrim t.data))).getD 0
    | none => 0
  let durPair : String × Option Int :=
    match page.durationText with
    | some t =>
      let d := String.mk (jsTrim t.data)
      (d, parseDurationString d)
    | none => ("0:00", some 0)
  let publishedDate :=
    match page.dateText with
    | some t => parsePublishedDate env (String.mk (jsTrim t.data))
    | none => env.now
  if title = "" ∨ title = "Vídeo do YouTube" then
    getDemoVideoData env videoId k
  else
    (⟨title, views, likes, durPair.1, durPair.2, publishedDate⟩, k)

/-- The per-item loop of `processPlaylistWithApi` (youtube-extractor.js:81):
emit an item event, then the two lookups, `parseDuration` (which throws on a
null regex match), screenshot capture, and the three accumulator pushes.
The second component is `false` when the iteration threw. -/
def apiLoop (env : Env) : List ApiItem → Nat → Nat → RunState → RunState × Bool
  | [], _, _, s => (s, true)
  | item :: rest, n, i, s =>
    let s := emit s ⟨10 + 80 * i / n,
      "Processando vídeo " ++ toString (i + 1) ++ " de " ++ toString n ++ "...",
      i, n, some item.title⟩
    match env.apiVideoDetails item.videoId with
    | .error _ => (s, false)
    | .ok det =>
      match env.apiVideoStats item.videoId with
      | .error _ => (s, false)
      | .ok st =>
        match parseDuration det.duration with
        | none => (s, false)
        | some dur =>
          let shot := (env.capture item.videoId).map
            (fun u => Screenshot.mk item.videoId item.title u)
          let v : VideoData :=
            ⟨item.videoId, item.title, formatDuration dur,
             jsParseInt st.viewCount, jsParseInt (st.likeCount.getD "0"),
             det.publishedAt, (dur : Int)⟩
          let s := { s with
            videos := s.videos ++ [v],
            screenshots := s.screenshots ++ shot.toList,
            totalDuration := s.totalDuration + (dur : Int) }
          apiLoop env rest n (i + 1) s

/-- `processPlaylistWithApi` (youtube-extractor.js:50).  The second component
is `false` when the function threw (failed request, empty playlist, or a
per-item error). -/
def processPlaylistWithApi (env : Env) (pid : String) (s : RunState) :
    RunState × Bool :=
  let s := emit s ⟨5, "Conectando à API do YouTube...", 0, 0, none⟩
  match env.apiPlaylistItems pid with
  | .error _ => (s, false)
  | .ok items =>
    let n := items.length
    if n = 0 then (s, false)
    else
      let s := emit s ⟨10,
        "Encontrados " ++ toString n ++ " vídeos na playlist.", 0, n, none⟩
      match apiLoop env items n 0 s with
      | (s, false) => (s, false)
      | (s, true) =>
        let s := emit s ⟨90, "Finalizando processamento...", n, n, none⟩
        let s := emit s ⟨100, "Processamento concluído!", n, n, none⟩
        (s, true)

/-- The video-id substitution of the scraping path
(youtube-extractor.js:214-217): an empty scraped listing is replaced by the
five demo ids. -/
def effectiveVideoIds (env : Env) (pid : String) : List String :=
  let ids := env.scrapeIds pid
  if ids.isEmpty then getDemoVideoIds else ids

/-- The per-item loop of `processPlaylistWithScraping`
(youtube-extractor.js:237): emit an item event, scrape details (threading the
Math.random cursor), apply the `|| 0` / `|| '0:00'` guards, capture, push. -/
def scrapeLoop (env : Env) : List String → Nat → Nat → RunState → RunState
  | [], _, _, s => s
  | vid :: rest, n, i, s =>
    let s := emit s ⟨15 + 80 * i / n,
      "Processando vídeo " ++ toString (i + 1) ++ " de " ++ toString n ++ "...",
      i, n, some ("Vídeo " ++ toString (i + 1))⟩
    let dk := scrapeVideoDetails env vid s.rngIdx
    let det := dk.1
    let dur : Int := det.durationSeconds.getD 0
    let durF := if det.duration = "" then "0:00" else det.duration
    let shot := (env.capture vid).map (fun u => Screenshot.mk vid det.title u)
    let v : VideoData :=
      ⟨vid, det.title, durF, some det.views, some det.likes,
       det.publishedDate, dur⟩
    let s := { s with
      videos := s.videos ++ [v],
      screenshots := s.screenshots ++ shot.toList,
      totalDuration := s.totalDuration + dur,
      rngIdx := dk.2 }
    scrapeLoop env rest n (i + 1) s

/-- `processPlaylistWithScraping` (youtube-extractor.js:146).  The second
component is `false` when the function threw; the only throw site is the
empty-listing check, which is unreachable because the demo-id substitution
always yields five ids. -/
def processPlaylistWithScraping (env : Env) (pid : String) (s : RunState) :
    RunState × Bool :=
  let s := emit s ⟨5, "Iniciando extração via web scraping...", 0, 0, none⟩
  let s := emit s ⟨10, "Analisando página da playlist...", 0, 0, none⟩
  let ids := effectiveVideoIds env pid
  let n := ids.length
  if n = 0 then (s, false)
  else
    let s := emit s ⟨15,
      "Encontrados " ++ toString n ++ " vídeos na playlist.", 0, n, none⟩
    let s := scrapeLoop env ids n 0 s
    let s := emit s ⟨95, "Finalizando processamento...", n, n, none⟩
    let s := emit s ⟨100, "Processamento concluído!", n, n, none⟩
    (s, true)

/-- `processPlaylist` (youtube-extractor.js:18): reset the accumulators, try
the API when a key is configured, and on any API error fall back to scraping
WITHOUT resetting the accumulators again; wrap a scraping failure in the
user-facing message. -/
def processPlaylist (env : Env) (pid : String) :
    RunState × Except String ExtractResult :=
  let s0 := initialRunState
  if env.apiKey ≠ "" then
    match processPlaylistWithApi env pid s0 with
    | (s1, true) => (s1, .ok ⟨s1.videos, s1.screenshots, s1.totalDuration⟩)
    | (s1, false) =>
      match processPlaylistWithScraping env pid s1 with
      | (s2, true) => (s2, .ok ⟨s2.videos, s2.screenshots, s2.totalDuration⟩)
      | (s2, false) =>
        (s2, .error "Falha ao processar a playlist. Verifique o link e tente novamente.")
  else
    match processPlaylistWithScraping env pid s0 with
    | (s2, true) => (s2, .ok ⟨s2.videos, s2.screenshots, s2.totalDuration⟩)
    | (s2, false) =>
      (s2, .error "Falha ao processar a playlist. Verifique o link e tente novamente.")

/-! ## Renderer (class DocumentGenerator, document-generator.js) -/

/-- One per-video section of the DOCX document: heading, label/value metadata
rows, optional embedded image, and a trailing page break (absent on the last
section). -/
structure DocxSection where
  heading : String
  rows : List (String × String)
  imageData : Option String
  pageBreak : Bool
deriving DecidableEq

/-- The generated artifact body: structured DOCX sections or the fallback
HTML text. -/
inductive DocPayload
  | docx (title : String) (sections : List DocxSection)
  | html (content : String)
deriving DecidableEq

/-- The `{ blob, filename }` object returned by the generators, with the
blob's MIME type made explicit. -/
structure Artifact where
  payload : DocPayload
  filename : String
  mimeType : String
deriving DecidableEq

/-- The renderer's external world: whether the docx library loaded, whether
document construction/packing succeeds, the image fetch
(`getImageDataFromUrl`, `none` = rejected promise), and
`new Date(d).toLocaleDateString()` (host/locale dependent). -/
structure DocEnv where
  docxLoaded : Bool
  packOk : Bool
  fetchImage : String → Option String
  formatDate : String → String

/-- JS number-to-string coercion for the `Option Int` NaN model. -/
def jsNumToString (o : Option Int) : String :=
  match o with
  | some v => toString v
  | none => "NaN"

/-- The HTML fragment for one video in `generateHtmlDocument`
(document-generator.js:386-399); `screenshots[i]` may be out of range
(falsy), skipping the img tag. -/
def htmlForVideo (denv : DocEnv) (screenshots : List Screenshot) (i : Nat)
    (v : VideoData) : String :=
  "<h2>Vídeo " ++ toString (i + 1) ++ ": " ++ v.title ++ "</h2>" ++
  "<ul>" ++
  "<li><strong>Duração:</strong> " ++ v.duration ++ "</li>" ++
  "<li><strong>Views:</strong> " ++ jsNumToString v.views ++ "</li>" ++
  "<li><strong>Likes:</strong> " ++ jsNumToString v.likes ++ "</li>" ++
  "<li><strong>Link:</strong> <a href=\"https://www.youtube.com/watch?v=" ++
    v.videoId ++ "\">Ver no YouTube</a></li>" ++
  "<li><strong>Data de Publicação:</strong> " ++
    denv.formatDate v.publishedDate ++ "</li>" ++
  "</ul>" ++
  (match screenshots.get? i with
   | some sc => "<img src=\"" ++ sc.imageUrl ++ "\" style=\"max-width:600px;\"><br>"
   | none => "") ++
  "<hr>"

/-- `generateHtmlDocument` (document-generator.js:377): the degradation floor;
never fails. -/
def generateHtmlDocument (denv : DocEnv) (videos : List VideoData)
    (screenshots : List Screenshot) : Artifact :=
  let body := String.join
    ((videos.enum.map (fun p => htmlForVideo denv screenshots p.1 p.2)))
  ⟨.html ("<h1>Comprovação de Dados - Playlist YouTube</h1>" ++ body),
   "comprovacao_videos.html", "text/html;charset=utf-8;"⟩

/-- The metadata table rows of one DOCX section
(document-generator.js:222-318). -/
def metadataRows (denv : DocEnv) (v : VideoData) : List (String × String) :=
  [("Nome do Episódio:", v.title),
   ("Duração:", v.duration),
   ("Views:", jsNumToString v.views),
   ("Likes:", jsNumToString v.likes),
   ("Link:", "https://www.youtube.com/watch?v=" ++ v.videoId),
   ("Data Publicação:", denv.formatDate v.publishedDate)]

/-- The DOCX sections built by the loop of `generateWordDocument`
(document-generator.js:202-339): `screenshots[i]` is looked up per index (an
out-of-range access throws inside the image try/catch, leaving the image
absent), and a page break follows every section but the last. -/
def docxSections (denv : DocEnv) (videos : List VideoData)
    (screenshots : List Screenshot) : List DocxSection :=
  videos.enum.map (fun p =>
    ⟨"Vídeo " ++ toString (p.1 + 1) ++ ": " ++ p.2.title,
     metadataRows denv p.2,
     (screenshots.get? p.1).bind (fun sc => denv.fetchImage sc.imageUrl),
     p.1 + 1 < videos.length⟩)

/-- `generateWordDocument` (document-generator.js:109): throws when the video
list OR the screenshot list is empty; degrades to the HTML document when the
docx library is missing or anything in the docx path errors. -/
def generateWordDocument (denv : DocEnv) (videos : List VideoData)
    (screenshots : List Screenshot) : Except String Artifact :=
  if videos.isEmpty || screenshots.isEmpty then
    .error "Nenhum dado disponível para gerar o documento."
  else if !denv.docxLoaded then
    .ok (generateHtmlDocument denv videos screenshots)
  else if !denv.packOk then
    .ok (generateHtmlDocument denv videos screenshots)
  else
    .ok ⟨.docx "Comprovação de Dados - Playlist YouTube"
           (docxSections denv videos screenshots),
         "comprovacao_videos.docx",
         "application/vnd.openxmlformats-officedocument.wordprocessingml.document"⟩

/-! ## Concrete scenario environments -/

/-- Whether an `Except` result is a success. -/
def isOkB {ε α : Type} (e : Except ε α) : Bool :=
  match e with
  | .ok _ => true
  | .error _ => false

/-- Scenario: credential configured, 5-item playlist, the details lookup for
item 3 (id "c") fails, scraping lists the same five ids and finds titles. -/
def envRestart : Env where
  apiKey := "KEY"
  apiPlaylistItems := fun _ =>
    .ok [⟨"a", "Ta"⟩, ⟨"b", "Tb"⟩, ⟨"c", "Tc"⟩, ⟨"d", "Td"⟩, ⟨"e", "Te"⟩]
  apiVideoDetails := fun v =>
    if v = "c" then .error () else .ok ⟨"PT1M", "2020-01-01T00:00:00Z"⟩
  apiVideoStats := fun _ => .ok ⟨"100", some "10"⟩
  scrapeIds := fun _ => ["a", "b", "c", "d", "e"]
  page := fun v => ⟨some ("T" ++ v), none, none, none, none⟩
  capture := fun _ => some "data:image/png;base64,AAA"
  parseDate := fun d => d
  rng := fun _ => 0
  now := "2024-01-01T00:00:00.000Z"

/-- Scenario: no credential and an empty scraped listing (the
"emptyPlaylistId" scenario of the spec). -/
def envEmptyListing : Env where
  apiKey := ""
  apiPlaylistItems := fun _ => .ok []
  apiVideoDetails := fun _ => .error ()
  apiVideoStats := fun _ => .error ()
  scrapeIds := fun _ => []
  page := fun _ => ⟨none, none, none, none, none⟩
  capture := fun _ => none
  parseDate := fun d => d
  rng := fun _ => 0
  now := "2024-01-01T00:00:00.000Z"

/-- Scenario: fallback run over two items where the screenshot capture fails
for the first item and succeeds for the second. -/
def envCaptureFail : Env where
  apiKey := ""
  apiPlaylistItems := fun _ => .ok []
  apiVideoDetails := fun _ => .error ()
  apiVideoStats := fun _ => .error ()
  scrapeIds := fun _ => ["a", "b"]
  page := fun v => ⟨some ("T" ++ v), none, none, none, none⟩
  capture := fun v => if v = "a" then none else some "img-b"
  parseDate := fun d => d
  rng := fun _ => 0
  now := "2024-01-01T00:00:00.000Z"

/-- Scenario: fallback run over two items where every capture succeeds. -/
def envAllCapture : Env where
  apiKey := ""
  apiPlaylistItems := fun _ => .ok []
  apiVideoDetails := fun _ => .error ()
  apiVideoStats := fun _ => .error ()
  scrapeIds := fun _ => ["a", "b"]
  page := fun v => ⟨some ("T" ++ v), none, none, none, none⟩
  capture := fun _ => some "img"
  parseDate := fun d => d
  rng := fun _ => 0
  now := "2024-01-01T00:00:00.000Z"

/-- An RNG whose first two draws differ from its next two, to exhibit the
non-reproducibility of unknown-id demo records. -/
def envRng : Env where
  apiKey := ""
  apiPlaylistItems := fun _ => .ok []
  apiVideoDetails := fun _ => .error ()
  apiVideoStats := fun _ => .error ()
  scrapeIds := fun _ => []
  page := fun _ => ⟨none, none, none, none, none⟩
  capture := fun _ => none
  parseDate := fun d => d
  rng := fun k => if k < 2 then 0 else 1 / 2
  now := "2024-01-01T00:00:00.000Z"

/-- A renderer environment with every collaborator available. -/
def denvFull : DocEnv where
  docxLoaded := true
  packOk := true
  fetchImage := fun u => some u
  formatDate := fun d => d

/-- A sample record (the spec's scenario record). -/
def sampleVideo : VideoData :=
  ⟨"dQw4w9WgXcQ", "Test", "3:33", some 1234567890, some 12345678,
   "2009-10-25T00:00:00Z", 213⟩

/-! ## Helper lemmas: digits and rendering -/

lemma digitChar_spec : ∀ d < 10, (digitChar d).isDigit = true ∧ digitVal (digitChar d) = d := by
  decide

lemma isDigit_digitChar_mod (n : Nat) : (digitChar (n % 10)).isDigit = true :=
  (digitChar_spec (n % 10) (Nat.mod_lt _ (by omega))).1

lemma digitsVal_append_one (l : List Char) (c : Char) :
    digitsVal (l ++ [c]) = 10 * digitsVal l + digitVal c := by
  simp [digitsVal, List.foldl_append]

lemma natDigitsAux_isDigit :
    ∀ fuel n, ∀ c ∈ natDigitsAux fuel n, c.isDigit = true := by
  intro fuel
  induction fuel with
  | zero => intro n c hc; simp [natDigitsAux] at hc
  | succ fuel ih =>
    intro n c hc
    by_cases h : n < 10
    · simp [natDigitsAux, h] at hc
      subst hc
      exact (digitChar_spec n h).1
    · simp [natDigitsAux, h] at hc
      rcases hc with hc | hc
      · exact ih _ c hc
      · subst hc
        exact isDigit_digitChar_mod n

lemma natDigitsAux_val :
    ∀ fuel n, n < fuel → digitsVal (natDigitsAux fuel n) = n := by
  intro fuel
  induction fuel with
  | zero => intro n h; omega
  | succ fuel ih =>
    intro n h
    by_cases h10 : n < 10
    · simp [natDigitsAux, h10, digitsVal, (digitChar_spec n h10).2]
    · have hdiv : n / 10 < fuel := by
        have := Nat.div_lt_self (by omega : 0 < n) (by omega : 1 < 10)
        omega
      simp only [natDigitsAux, if_neg h10]
      rw [digitsVal_append_one, ih _ hdiv,
        (digitChar_spec (n % 10) (Nat.mod_lt _ (by omega))).2]
      omega

lemma natDigitsAux_ne_nil : ∀ fuel n, 0 < fuel → natDigitsAux fuel n ≠ [] := by
  intro fuel n h
  cases fuel with
  | zero => omega
  | succ fuel =>
    by_cases h10 : n < 10 <;> simp [natDigitsAux, h10]

lemma natDigits_isDigit (n : Nat) : ∀ c ∈ natDigits n, c.isDigit = true :=
  natDigitsAux_isDigit (n + 1) n

lemma digitsVal_natDigits (n : Nat) : digitsVal (natDigits n) = n :=
  natDigitsAux_val (n + 1) n (Nat.lt_succ_self n)

lemma natDigits_ne_nil (n : Nat) : natDigits n ≠ [] :=
  natDigitsAux_ne_nil (n + 1) n (Nat.succ_pos n)

lemma pad2_isDigit (n : Nat) : ∀ c ∈ pad2 n, c.isDigit = true := by
  intro c hc
  unfold pad2 at hc
  by_cases h : n < 10
  · simp [h] at hc
    rcases hc with hc | hc
    · subst hc; decide
    · exact natDigits_isDigit n c hc
  · simp [h] at hc
    exact natDigits_isDigit n c hc

lemma digitsVal_pad2 (n : Nat) : digitsVal (pad2 n) = n := by
  unfold pad2
  by_cases h : n < 10
  · have : digitsVal ('0' :: natDigits n) = digitsVal (natDigits n) := by
      simp only [digitsVal, List.foldl_cons]
      rw [show 10 * 0 + digitVal '0' = 0 from by decide]
    simp [h, this, digitsVal_natDigits]
  · simp [h, digitsVal_natDigits]

lemma pad2_ne_nil (n : Nat) : pad2 n ≠ [] := by
  unfold pad2
  by_cases h : n < 10 <;> simp [h, natDigits_ne_nil]

/-! ## Helper lemmas: character classes -/

lemma isDigit_not_ws {c : Char} (h : c.isDigit = true) : c.isWhitespace = false := by
  have h1 : c ≠ ' ' := by rintro rfl; exact absurd h (by decide)
  have h2 : c ≠ '\t' := by rintro rfl; exact absurd h (by decide)
  have h3 : c ≠ '\r' := by rintro rfl; exact absurd h (by decide)
  have h4 : c ≠ '\n' := by rintro rfl; exact absurd h (by decide)
  simp [Char.isWhitespace, h1, h2, h3, h4]

lemma isDigit_ne_dash {c : Char} (h : c.isDigit = true) : c ≠ '-' := by
  rintro rfl; exact absurd h (by decide)

lemma isDigit_ne_plus {c : Char} (h : c.isDigit = true) : c ≠ '+' := by
  rintro rfl; exact absurd h (by decide)

lemma isDigit_ne_colon {c : Char} (h : c.isDigit = true) : c ≠ ':' := by
  rintro rfl; exact absurd h (by decide)

/-! ## Helper lemmas: takeWhile / dropWhile / parseInt -/

lemma takeWhile_all {p : Char → Bool} :
    ∀ {l : List Char}, (∀ c ∈ l, p c = true) → l.takeWhile p = l := by
  intro l
  induction l with
  | nil => intro; rfl
  | cons c t ih =>
    intro h
    rw [List.takeWhile_cons, if_pos (h c (List.mem_cons_self c t)),
      ih (fun x hx => h x (List.mem_cons_of_mem c hx))]

lemma dropWhile_head_false {p : Char → Bool} {c : Char} {t : List Char}
    (h : p c = false) : (c :: t).dropWhile p = c :: t := by
  rw [List.dropWhile_cons, if_neg (by simp [h])]

/-- `parseInt` on a non-empty all-digit character list returns its value. -/
lemma jsParseIntChars_digits {l : List Char} (hne : l ≠ [])
    (hd : ∀ c ∈ l, c.isDigit = true) :
    jsParseIntChars l = some (digitsVal l : Int) := by
  obtain ⟨c, t, rfl⟩ := List.exists_cons_of_ne_nil hne
  have hc : c.isDigit = true := hd c (List.mem_cons_self c t)
  unfold jsParseIntChars
  rw [dropWhile_head_false (isDigit_not_ws hc)]
  simp only [if_neg (isDigit_ne_dash hc), if_neg (isDigit_ne_plus hc)]
  unfold leadDigits
  rw [takeWhile_all hd]
  simp

/-! ## Helper lemmas: splitColon -/

lemma splitColon_no_colon :
    ∀ {l : List Char}, (∀ c ∈ l, c ≠ ':') → splitColon l = [l] := by
  intro l
  induction l with
  | nil => intro; rfl
  | cons c t ih =>
    intro h
    have hc : c ≠ ':' := h c (List.mem_cons_self c t)
    simp only [splitColon, if_neg hc]
    rw [ih (fun x hx => h x (List.mem_cons_of_mem c hx))]

lemma splitColon_append {a b : List Char} (h : ∀ c ∈ a, c ≠ ':') :
    splitColon (a ++ ':' :: b) = a :: splitColon b := by
  induction a with
  | nil => simp [splitColon]
  | cons c t ih =>
    have hc : c ≠ ':' := h c (List.mem_cons_self c t)
    simp only [List.cons_append, splitColon, if_neg hc, List.append_eq]
    rw [ih (fun x hx => h x (List.mem_cons_of_mem c hx))]

lemma natDigits_no_colon (n : Nat) : ∀ c ∈ natDigits n, c ≠ ':' :=
  fun c hc => isDigit_ne_colon (natDigits_isDigit n c hc)

lemma pad2_no_colon (n : Nat) : ∀ c ∈ pad2 n, c ≠ ':' :=
  fun c hc => isDigit_ne_colon (pad2_isDigit n c hc)

lemma jsParseIntChars_natDigits (n : Nat) :
    jsParseIntChars (natDigits n) = some (n : Int) := by
  rw [jsParseIntChars_digits (natDigits_ne_nil n) (natDigits_isDigit n),
    digitsVal_natDigits]

lemma jsParseIntChars_pad2 (n : Nat) :
    jsParseIntChars (pad2 n) = some (n : Int) := by
  rw [jsParseIntChars_digits (pad2_ne_nil n) (pad2_isDigit n), digitsVal_pad2]

/-! ## Claim C4: duration round-trip -/

/-- Claim C4 (confirmed): for all non-negative integers s,
`parseDisplayDuration(formatDuration(s)) == s` — parsing the formatted clock
string recovers exactly the original number of seconds. -/
theorem duration_roundtrip (s : Nat) :
    parseDurationString (formatDuration s) = some (s : Int) := by
  unfold formatDuration parseDurationString
  by_cases h : s / 3600 > 0
  · simp only [if_pos h]
    show parseDurationChars
      ((natDigits (s / 3600) ++ ':' :: pad2 (s % 3600 / 60)) ++ ':' :: pad2 (s % 60)) = _
    have hassoc :
        (natDigits (s / 3600) ++ ':' :: pad2 (s % 3600 / 60)) ++ ':' :: pad2 (s % 60)
        = natDigits (s / 3600) ++ ':' ::
            (pad2 (s % 3600 / 60) ++ ':' :: pad2 (s % 60)) := by
      simp
    rw [hassoc]
    unfold parseDurationChars
    rw [splitColon_append (natDigits_no_colon _),
      splitColon_append (pad2_no_colon _),
      splitColon_no_colon (pad2_no_colon _)]
    simp only [List.map_cons, List.map_nil, jsParseIntChars_natDigits,
      jsParseIntChars_pad2, Option.bind_eq_bind, Option.some_bind]
    congr 1
    push_cast
    omega
  · simp only [if_neg h]
    show parseDurationChars (natDigits (s % 3600 / 60) ++ ':' :: pad2 (s % 60)) = _
    unfold parseDurationChars
    rw [splitColon_append (natDigits_no_colon _),
      splitColon_no_colon (pad2_no_colon _)]
    simp only [List.map_cons, List.map_nil, jsParseIntChars_natDigits,
      jsParseIntChars_pad2, Option.bind_eq_bind, Option.some_bind]
    congr 1
    push_cast
    omega

/-- Witness for C4 at a concrete input. -/
theorem duration_roundtrip_witness :
    parseDurationString (formatDuration 3723) = some (3723 : Int) :=
  duration_roundtrip 3723

/-! ## Claim C7: machine-duration parsing -/

lemma hasPT_of_findPT :
    ∀ (cs : List Char) (r : List Char), findPT cs = some r → ['P', 'T'] <:+: cs
  | [], r => by simp [findPT]
  | [c], r => by simp [findPT]
  | a :: b :: rest, r => by
    intro h
    unfold findPT at h
    by_cases hab : a = 'P' ∧ b = 'T'
    · obtain ⟨rfl, rfl⟩ := hab
      exact ⟨[], rest, by simp⟩
    · rw [if_neg hab] at h
      obtain ⟨s1, t1, he⟩ := hasPT_of_findPT (b :: rest) r h
      exact ⟨a :: s1, t1, by simp [he]⟩

/-- Counterexample to claim C7: on an input with no regex match the code does
not return 0 — it dereferences `null` and throws (modelled `none`). -/
theorem parseDuration_counterexample :
    parseDuration "" = none ∧ parseDuration "" ≠ some 0 := by
  exact ⟨rfl, by decide⟩

/-- Claim C7 as amended: the three cited parses hold, but an input that does
not contain the substring "PT" makes the regex match `null` and the function
throw a TypeError (modelled `none`) instead of returning 0. -/
theorem parseDuration_amended :
    parseDuration "PT1H2M3S" = some 3723 ∧
    parseDuration "PT45S" = some 45 ∧
    parseDuration "PT5M" = some 300 ∧
    ∀ s : String, ¬ (['P', 'T'] <:+: s.data) → parseDuration s = none := by
  refine ⟨by decide, by decide, by decide, fun s h => ?_⟩
  unfold parseDuration
  cases hf : findPT s.data with
  | none => rfl
  | some r => exact absurd (hasPT_of_findPT s.data r hf) h

/-- Witness for the amended C7 at a concrete input. -/
theorem parseDuration_amended_witness : parseDuration "abc" = none :=
  parseDuration_amended.2.2.2 "abc" (by decide)

/-! ## Claim C8: display-duration parsing -/

/-- Counterexample to claim C8: a bare seconds string ("SS" shape) yields 0,
not its value in seconds. -/
theorem parseDurationString_counterexample :
    parseDurationString "45" = some 0 ∧ parseDurationString "45" ≠ some 45 := by
  exact ⟨rfl, by decide⟩

/-- Claim C8 as amended: two-part (`MM:SS`) and three-part (`HH:MM:SS`) digit
strings parse to their value in seconds, but a colon-free input (including the
bare `SS` shape) yields 0. -/
theorem parseDurationString_amended :
    (∀ m sec : Nat,
      parseDurationString (String.mk (natDigits m ++ ':' :: natDigits sec))
        = some ((m : Int) * 60 + sec)) ∧
    (∀ h m sec : Nat,
      parseDurationString (String.mk
          (natDigits h ++ ':' :: (natDigits m ++ ':' :: natDigits sec)))
        = some ((h : Int) * 3600 + (m : Int) * 60 + sec)) ∧
    (∀ s : String, (∀ c ∈ s.data, c ≠ ':') → parseDurationString s = some 0) := by
  refine ⟨fun m sec => ?_, fun h m sec => ?_, fun s hs => ?_⟩
  · show parseDurationChars (natDigits m ++ ':' :: natDigits sec) = _
    unfold parseDurationChars
    rw [splitColon_append (natDigits_no_colon _),
      splitColon_no_colon (natDigits_no_colon _)]
    simp [jsParseIntChars_natDigits]
  · show parseDurationChars
      (natDigits h ++ ':' :: (natDigits m ++ ':' :: natDigits sec)) = _
    unfold parseDurationChars
    rw [splitColon_append (natDigits_no_colon _),
      splitColon_append (natDigits_no_colon _),
      splitColon_no_colon (natDigits_no_colon _)]
    simp [jsParseIntChars_natDigits]
  · show parseDurationChars s.data = _
    unfold parseDurationChars
    rw [splitColon_no_colon hs]
    rfl

/-- Witness for the amended C8 at concrete inputs. -/
theorem parseDurationString_amended_witness :
    parseDurationString "7" = some 0 ∧
    parseDurationString (String.mk (natDigits 3 ++ ':' :: natDigits 33))
      = some ((3 : Int) * 60 + 33) :=
  ⟨parseDurationString_amended.2.2 "7" (by decide),
   parseDurationString_amended.1 3 33⟩

/-! ## Claim C9: abbreviated-count parsing -/

/-- Whether a character list ends in one of the scale suffixes K/M/B. -/
def endsKMB (cs : List Char) : Bool :=
  jsEndsWith cs 'K' || jsEndsWith cs 'M' || jsEndsWith cs 'B'

lemma jsParseFloatRep_onetwo :
    jsParseFloatRep ['1', '.', '2'] = some ⟨false, 1, 2, 1, 0⟩ := by decide

lemma jsParseFloatRep_fourfive :
    jsParseFloatRep ['4', '.', '5'] = some ⟨false, 4, 5, 1, 0⟩ := by decide

lemma parseCount_onetwoK : parseCount "1.2K" = some 1200 := by
  have h1 : parseCount "1.2K"
      = ((jsParseFloatRep ['1', '.', '2']).map floatVal).map
          (fun q => jsRound (q * 1000)) := rfl
  rw [h1, jsParseFloatRep_onetwo]
  show some (jsRound (floatVal ⟨false, 1, 2, 1, 0⟩ * 1000)) = some 1200
  unfold floatVal jsRound
  norm_num

lemma parseCount_fourfiveM : parseCount "4.5M" = some 4500000 := by
  have h1 : parseCount "4.5M"
      = ((jsParseFloatRep ['4', '.', '5']).map floatVal).map
          (fun q => jsRound (q * 1000000)) := rfl
  rw [h1, jsParseFloatRep_fourfive]
  show some (jsRound (floatVal ⟨false, 4, 5, 1, 0⟩ * 1000000)) = some 4500000
  unfold floatVal jsRound
  norm_num

/-- Counterexample to claim C9: the input "K" is unparseable but the code
returns `Math.round(NaN * 1000)`, i.e. NaN (modelled `none`), not 0. -/
theorem parseCount_counterexample :
    parseCount "K" = none ∧ parseCount "K" ≠ some 0 := by
  exact ⟨rfl, by decide⟩

/-- Claim C9 as amended: the cited parses hold and every input whose
trimmed/uppercased form does not end in K/M/B yields some number (0 when no
digits are present); but a K/M/B-suffixed input with an unparseable mantissa
yields NaN instead of 0. -/
theorem parseCount_amended :
    parseCount "1.2K" = some 1200 ∧
    parseCount "4.5M" = some 4500000 ∧
    parseCount "42" = some 42 ∧
    parseCount "" = some 0 ∧
    ∀ s : String, endsKMB (jsToUpper (jsTrim s.data)) = false →
      ∃ n : Int, parseCount s = some n := by
  refine ⟨parseCount_onetwoK, parseCount_fourfiveM, by decide, by decide,
    fun s h => ?_⟩
  simp only [endsKMB, Bool.or_eq_false_iff] at h
  obtain ⟨⟨hK, hM⟩, hB⟩ := h
  by_cases hs : s = ""
  · exact ⟨0, by rw [hs]; decide⟩
  · refine ⟨((leadDigits (stripNonDigits (jsToUpper (jsTrim s.data)))).map
      (fun v => (v : Int))).getD 0, ?_⟩
    unfold parseCount
    rw [if_neg hs]
    simp only [hK, hM, hB, Bool.false_eq_true, if_false]

/-- Witness for the amended C9 at a concrete input. -/
theorem parseCount_amended_witness :
    ∃ n : Int, parseCount "abc!" = some n :=
  parseCount_amended.2.2.2.2 "abc!" (by decide)

/-! ## Claim C10: demo-record determinism -/

/-- Counterexample to claim C10: two successive demo-record substitutions for
the same unknown id within one run draw fresh `Math.random` values and can
differ — they are not reproducible within the run. -/
theorem getDemoVideoData_counterexample :
    (getDemoVideoData envRng "zzz" 0).1 ≠
      (getDemoVideoData envRng "zzz" (getDemoVideoData envRng "zzz" 0).2).1 := by
  intro h
  have hv : jsFloor ((0 : ℚ) * 1000000) = jsFloor ((1 / 2 : ℚ) * 1000000) :=
    congrArg ScrapedVideo.views h
  rw [show jsFloor ((0 : ℚ) * 1000000) = 0 from by norm_num [jsFloor],
    show jsFloor ((1 / 2 : ℚ) * 1000000) = 500000 from by norm_num [jsFloor]] at hv
  exact absurd hv (by decide)

/-- Claim C10 as amended: for the five well-known ids the substituted demo
record comes from the fixed table and is deterministic (independent of the
Math.random cursor); unknown ids consume fresh random draws per substitution
and are not reproducible. -/
theorem getDemoVideoData_known_deterministic (env : Env) (id : String)
    (k k' : Nat) (h : id ∈ getDemoVideoIds) :
    (getDemoVideoData env id k).1 = (getDemoVideoData env id k').1 := by
  simp only [getDemoVideoIds, List.mem_cons, List.not_mem_nil, or_false] at h
  rcases h with rfl | rfl | rfl | rfl | rfl <;> rfl

/-- Witness for the amended C10 at a concrete input. -/
theorem getDemoVideoData_known_deterministic_witness :
    (getDemoVideoData envRng "jNQXAC9IVRw" 0).1 =
      (getDemoVideoData envRng "jNQXAC9IVRw" 37).1 :=
  getDemoVideoData_known_deterministic envRng "jNQXAC9IVRw" 0 37 (by decide)

/-! ## Pipeline lemmas -/

/-- The progress fractions emitted so far, in emission order. -/
def progressList (s : RunState) : List Nat :=
  s.events.map (fun e => e.progress)

lemma scrapeLoop_videoIds (env : Env) :
    ∀ (ids : List String) (n i : Nat) (s : RunState),
      (scrapeLoop env ids n i s).videos.map (fun v => v.videoId)
        = s.videos.map (fun v => v.videoId) ++ ids := by
  intro ids
  induction ids with
  | nil => intro n i s; simp [scrapeLoop]
  | cons vid rest ih =>
    intro n i s
    simp only [scrapeLoop]
    rw [ih]
    simp [emit]

lemma effectiveVideoIds_ne_nil (env : Env) (pid : String) :
    effectiveVideoIds env pid ≠ [] := by
  unfold effectiveVideoIds
  cases h : env.scrapeIds pid with
  | nil => simp [getDemoVideoIds]
  | cons a t => simp

lemma scraping_snd_true (env : Env) (pid : String) (s : RunState) :
    (processPlaylistWithScraping env pid s).2 = true := by
  unfold processPlaylistWithScraping
  have h := effectiveVideoIds_ne_nil env pid
  rw [if_neg (by simp [List.length_eq_zero, h])]

lemma scraping_videoIds (env : Env) (pid : String) (s : RunState) :
    (processPlaylistWithScraping env pid s).1.videos.map (fun v => v.videoId)
      = s.videos.map (fun v => v.videoId) ++ effectiveVideoIds env pid := by
  unfold processPlaylistWithScraping
  have h := effectiveVideoIds_ne_nil env pid
  rw [if_neg (by simp [List.length_eq_zero, h])]
  simp only [emit]
  rw [scrapeLoop_videoIds]

/-! ## Claim C2: empty playlist -/

/-- Counterexample to claim C2: with no credential and an empty item listing,
`extract` does not reject with EmptyPlaylist — it substitutes the five demo
ids and resolves successfully with five fabricated records. -/
theorem emptyPlaylist_counterexample :
    isOkB (processPlaylist envEmptyListing "emptyPlaylistId").2 = true ∧
    (processPlaylist envEmptyListing "emptyPlaylistId").1.videos.length = 5 := by
  exact ⟨rfl, rfl⟩

/-- Claim C2 as amended: in fallback mode an empty item listing never raises
EmptyPlaylist; the five demo ids are substituted and the run succeeds with
exactly the five fabricated records (the in-code EmptyPlaylist check is
unreachable after the substitution). -/
theorem emptyPlaylist_amended (env : Env) (pid : String)
    (hkey : env.apiKey = "") (hids : env.scrapeIds pid = []) :
    isOkB (processPlaylist env pid).2 = true ∧
    (processPlaylist env pid).1.videos.map (fun v => v.videoId)
      = getDemoVideoIds := by
  unfold processPlaylist
  rw [if_neg (by simp [hkey])]
  have hsnd := scraping_snd_true env pid initialRunState
  have hids2 : effectiveVideoIds env pid = getDemoVideoIds := by
    unfold effectiveVideoIds
    rw [hids]
    rfl
  have hvid := scraping_videoIds env pid initialRunState
  cases hs : processPlaylistWithScraping env pid initialRunState with
  | mk s2 b =>
    rw [hs] at hsnd hvid
    cases b with
    | false => exact absurd hsnd (by simp)
    | true =>
      refine ⟨rfl, ?_⟩
      simpa [initialRunState, hids2] using hvid

/-- Witness for the amended C2 at a concrete environment. -/
theorem emptyPlaylist_amended_witness :
    isOkB (processPlaylist envEmptyListing "PLw").2 = true ∧
    (processPlaylist envEmptyListing "PLw").1.videos.map (fun v => v.videoId)
      = getDemoVideoIds :=
  emptyPlaylist_amended envEmptyListing "PLw" rfl rfl

/-! ## Claim C1: fallback restart policy (code bug) -/

/-- Claim C1 evaluated at the failing input: a 5-item primary run whose item 3
fails is restarted in fallback mode WITHOUT abandoning the partial primary
result — the final sequence is a merge of 2 primary records and 5 fallback
records (7 records, the first two ids duplicated), not the 5 the spec
requires. -/
theorem restart_merges_prior_records :
    isOkB (processPlaylist envRestart "PL").2 = true ∧
    (processPlaylist envRestart "PL").1.videos.map (fun v => v.videoId)
      = ["a", "b", "a", "b", "c", "d", "e"] ∧
    (processPlaylist envRestart "PL").1.videos.length = 7 := by
  exact ⟨rfl, rfl, rfl⟩

/-! ## Claim C6 counterexample -/

/-- Counterexample to claim C6: in a successful run that recovers via fallback
restart, the emitted progress fractions go 5, 10, 10, 26, 42 and then restart
at 5 — the sequence is not nondecreasing. -/
theorem progress_counterexample :
    isOkB (processPlaylist envRestart "PLc").2 = true ∧
    progressList (processPlaylist envRestart "PLc").1
      = [5, 10, 10, 26, 42, 5, 10, 15, 15, 31, 47, 63, 79, 95, 100] ∧
    ¬ List.Chain' (· ≤ ·) (progressList (processPlaylist envRestart "PLc").1) := by
  refine ⟨rfl, rfl, ?_⟩
  rw [show progressList (processPlaylist envRestart "PLc").1
    = [5, 10, 10, 26, 42, 5, 10, 15, 15, 31, 47, 63, 79, 95, 100] from rfl]
  intro hch
  rw [List.chain'_cons, List.chain'_cons, List.chain'_cons, List.chain'_cons,
    List.chain'_cons] at hch
  have h425 : (42 : Nat) ≤ 5 := hch.2.2.2.2.1
  omega

/-! ## Claim C5: rich-document degradation -/

/-- Counterexample to claim C5: a non-empty record list with an empty
screenshot list makes `generateWordDocument` throw EmptyInput, so the failure
condition is not "exactly when the record list is empty". -/
theorem generateWordDocument_counterexample :
    generateWordDocument denvFull [sampleVideo] []
      = Except.error "Nenhum dado disponível para gerar o documento." ∧
    ([sampleVideo] : List VideoData) ≠ [] := by
  exact ⟨rfl, by decide⟩

/-- Claim C5 as amended: `generateWordDocument` fails with EmptyInput exactly
when the record list or the screenshot list is empty; whenever both are
non-empty the caller always receives some artifact (the DOCX, or the HTML
fallback when the encoder is unavailable or errors). -/
theorem generateWordDocument_amended (denv : DocEnv) (videos : List VideoData)
    (screenshots : List Screenshot) :
    (generateWordDocument denv videos screenshots
        = Except.error "Nenhum dado disponível para gerar o documento."
      ↔ videos = [] ∨ screenshots = []) ∧
    (videos ≠ [] → screenshots ≠ [] →
      ∃ a : Artifact, generateWordDocument denv videos screenshots
        = Except.ok a) := by
  unfold generateWordDocument
  by_cases h : (videos.isEmpty || screenshots.isEmpty) = true
  · rw [if_pos h]
    simp only [Bool.or_eq_true, List.isEmpty_iff] at h
    exact ⟨by simp [h], fun hv hs => by tauto⟩
  · rw [if_neg h]
    simp only [Bool.or_eq_true, List.isEmpty_iff] at h
    push_neg at h
    by_cases h2 : denv.docxLoaded = true
    · by_cases h3 : denv.packOk = true
      · simp only [h2, h3, Bool.not_true, Bool.false_eq_true, if_false]
        exact ⟨by simp [h.1, h.2], fun _ _ => ⟨_, rfl⟩⟩
      · simp only [h2, eq_false_of_ne_true h3, Bool.not_true, Bool.not_false,
          Bool.false_eq_true, if_false, if_true]
        exact ⟨by simp [h.1, h.2], fun _ _ => ⟨_, rfl⟩⟩
    · simp only [eq_false_of_ne_true h2, Bool.not_false, if_true]
      exact ⟨by simp [h.1, h.2], fun _ _ => ⟨_, rfl⟩⟩

/-- Witness for the amended C5 at a concrete input. -/
theorem generateWordDocument_amended_witness :
    ∃ a : Artifact, generateWordDocument denvFull [sampleVideo]
      [⟨"dQw4w9WgXcQ", "Test", "u"⟩] = Except.ok a :=
  (generateWordDocument_amended denvFull [sampleVideo]
    [⟨"dQw4w9WgXcQ", "Test", "u"⟩]).2 (by decide) (by decide)

/-! ## Claim C3: record/screenshot alignment -/

/-- The screenshot sequence refers, position by position, to the same playlist
entries as the record sequence. -/
def alignedMaps (s : RunState) : Prop :=
  s.screenshots.map (fun sc => sc.videoId) = s.videos.map (fun v => v.videoId)

lemma scrapeLoop_alignedMaps (env : Env)
    (hc : ∀ v : String, (env.capture v).isSome = true) :
    ∀ (ids : List String) (n i : Nat) (s : RunState),
      alignedMaps s → alignedMaps (scrapeLoop env ids n i s) := by
  intro ids
  induction ids with
  | nil => intro n i s h; simpa [scrapeLoop]
  | cons vid rest ih =>
    intro n i s h
    simp only [scrapeLoop]
    apply ih
    obtain ⟨u, hu⟩ := Option.isSome_iff_exists.mp (hc vid)
    simp only [alignedMaps, emit, hu]
    simp [alignedMaps] at h
    simp [h]

lemma apiLoop_alignedMaps (env : Env)
    (hc : ∀ v : String, (env.capture v).isSome = true) :
    ∀ (items : List ApiItem) (n i : Nat) (s : RunState),
      alignedMaps s → alignedMaps (apiLoop env items n i s).1 := by
  intro items
  induction items with
  | nil => intro n i s h; simpa [apiLoop]
  | cons item rest ih =>
    intro n i s h
    simp only [apiLoop]
    split
    · simpa [alignedMaps, emit] using h
    · split
      · simpa [alignedMaps, emit] using h
      · split
        · simpa [alignedMaps, emit] using h
        · apply ih
          obtain ⟨u, hu⟩ := Option.isSome_iff_exists.mp (hc item.videoId)
          simp only [alignedMaps, emit, hu]
          simp [alignedMaps] at h
          simp [h]

lemma scraping_alignedMaps (env : Env) (pid : String) (s : RunState)
    (hc : ∀ v : String, (env.capture v).isSome = true) (h : alignedMaps s) :
    alignedMaps (processPlaylistWithScraping env pid s).1 := by
  unfold processPlaylistWithScraping
  have hne := effectiveVideoIds_ne_nil env pid
  rw [if_neg (by simp [List.length_eq_zero, hne])]
  have h2 : alignedMaps (emit (emit (emit s
      ⟨5, "Iniciando extração via web scraping...", 0, 0, none⟩)
      ⟨10, "Analisando página da playlist...", 0, 0, none⟩)
      ⟨15, "Encontrados " ++ toString (effectiveVideoIds env pid).length
        ++ " vídeos na playlist.", 0, (effectiveVideoIds env pid).length, none⟩) := by
    simpa [alignedMaps, emit] using h
  have h3 := scrapeLoop_alignedMaps env hc (effectiveVideoIds env pid)
    (effectiveVideoIds env pid).length 0 _ h2
  simpa [alignedMaps, emit] using h3

lemma api_alignedMaps (env : Env) (pid : String) (s : RunState)
    (hc : ∀ v : String, (env.capture v).isSome = true) (h : alignedMaps s) :
    alignedMaps (processPlaylistWithApi env pid s).1 := by
  unfold processPlaylistWithApi
  cases hpl : env.apiPlaylistItems pid with
  | error e => simpa [alignedMaps, emit] using h
  | ok items =>
    dsimp only
    by_cases hn : items.length = 0
    · rw [if_pos hn]
      simpa [alignedMaps, emit] using h
    · rw [if_neg hn]
      have h2 : alignedMaps (emit (emit s
          ⟨5, "Conectando à API do YouTube...", 0, 0, none⟩)
          ⟨10, "Encontrados " ++ toString items.length
            ++ " vídeos na playlist.", 0, items.length, none⟩) := by
        simpa [alignedMaps, emit] using h
      have h3 := apiLoop_alignedMaps env hc items items.length 0 _ h2
      cases hl : apiLoop env items items.length 0 (emit (emit s
          ⟨5, "Conectando à API do YouTube...", 0, 0, none⟩)
          ⟨10, "Encontrados " ++ toString items.length
            ++ " vídeos na playlist.", 0, items.length, none⟩) with
      | mk s1 b =>
        rw [hl] at h3
        cases b with
        | false => simpa using h3
        | true => simpa [alignedMaps, emit] using h3

/-- Counterexample to claim C3: a fallback run over two items whose first
capture fails produces 2 records but only 1 screenshot — the failed slot is
skipped, not kept empty, and position 0 of the screenshots refers to the
second playlist entry. -/
theorem alignment_counterexample :
    (processPlaylist envCaptureFail "PL3").1.videos.length = 2 ∧
    (processPlaylist envCaptureFail "PL3").1.screenshots.length = 1 ∧
    (processPlaylist envCaptureFail "PL3").1.screenshots.map
      (fun sc => sc.videoId) = ["b"] ∧
    (processPlaylist envCaptureFail "PL3").1.videos.map
      (fun v => v.videoId) = ["a", "b"] := by
  exact ⟨rfl, rfl, rfl, rfl⟩

/-- Claim C3 as amended: the record and screenshot sequences have equal length
and position i of both refers to the same playlist entry ONLY under the
assumption that image capture succeeds for every item; a failed capture's slot
is skipped entirely (the sequences are not padded with empty slots). -/
theorem records_screenshots_aligned (env : Env) (pid : String)
    (hc : ∀ v : String, (env.capture v).isSome = true) :
    (processPlaylist env pid).1.screenshots.map (fun sc => sc.videoId)
        = (processPlaylist env pid).1.videos.map (fun v => v.videoId) ∧
    (processPlaylist env pid).1.screenshots.length
        = (processPlaylist env pid).1.videos.length := by
  have key : alignedMaps (processPlaylist env pid).1 := by
    unfold processPlaylist
    by_cases hk : env.apiKey ≠ ""
    · rw [if_pos hk]
      have h1 := api_alignedMaps env pid initialRunState hc
        (by simp [alignedMaps, initialRunState])
      rcases ha : processPlaylistWithApi env pid initialRunState with ⟨s1, b⟩
      rw [ha] at h1
      cases b with
      | true => simpa using h1
      | false =>
        dsimp only
        have h2 := scraping_alignedMaps env pid s1 hc (by simpa using h1)
        rw [show processPlaylistWithScraping env pid s1
            = ((processPlaylistWithScraping env pid s1).1,
               (processPlaylistWithScraping env pid s1).2) from rfl]
        cases (processPlaylistWithScraping env pid s1).2 <;> simpa using h2
    · rw [if_neg hk]
      have h2 := scraping_alignedMaps env pid initialRunState hc
        (by simp [alignedMaps, initialRunState])
      rcases hs : processPlaylistWithScraping env pid initialRunState with ⟨s2, b2⟩
      rw [hs] at h2
      cases b2 with
      | true => simpa using h2
      | false => simpa using h2
  refine ⟨key, ?_⟩
  have := congrArg List.length key
  simpa using this

/-- Witness for the amended C3 at a concrete environment. -/
theorem records_screenshots_aligned_witness :
    (processPlaylist envAllCapture "PLa").1.screenshots.map (fun sc => sc.videoId)
        = (processPlaylist envAllCapture "PLa").1.videos.map (fun v => v.videoId) ∧
    (processPlaylist envAllCapture "PLa").1.screenshots.length
        = (processPlaylist envAllCapture "PLa").1.videos.length :=
  records_screenshots_aligned envAllCapture "PLa" (fun _ => rfl)

/-! ## Claim C6: progress monotonicity -/

lemma chain'_le_append {l₁ l₂ : List Nat}
    (h₁ : List.Chain' (· ≤ ·) l₁) (h₂ : List.Chain' (· ≤ ·) l₂)
    (hb : ∀ x ∈ l₁, ∀ y ∈ l₂.head?, x ≤ y) :
    List.Chain' (· ≤ ·) (l₁ ++ l₂) := by
  rw [List.chain'_append]
  refine ⟨h₁, h₂, fun x hx y hy => hb x ?_ y hy⟩
  obtain ⟨hne, rfl⟩ := List.mem_getLast?_eq_getLast hx
  exact List.getLast_mem hne

lemma chain'_le_map_range' (f : Nat → Nat) (hf : ∀ j, f j ≤ f (j + 1)) :
    ∀ (k i : Nat), List.Chain' (· ≤ ·) ((List.range' i k).map f) := by
  intro k
  induction k with
  | zero => intro i; simp
  | succ k ih =>
    intro i
    rw [List.range'_succ, List.map_cons, List.chain'_cons']
    refine ⟨?_, ih (i + 1)⟩
    intro y hy
    cases k with
    | zero => simp at hy
    | succ m =>
      rw [List.range'_succ, List.map_cons, List.head?_cons] at hy
      simp only [Option.mem_def, Option.some.injEq] at hy
      subst hy
      exact hf i

lemma getLast?_append_two (l : List Nat) (a b : Nat) :
    (l ++ [a, b]).getLast? = some b := by
  rw [show l ++ [a, b] = (l ++ [a]) ++ [b] by simp]
  exact List.getLast?_concat _

/-- The general shape of one phase's progress schedule: a fixed prefix, a
per-item linear ramp, and two closing values. -/
lemma progress_chain (pre : List Nat) (f : Nat → Nat) (n p q : Nat)
    (hpre : List.Chain' (· ≤ ·) pre)
    (hf : ∀ j, f j ≤ f (j + 1))
    (hpre_le : ∀ x ∈ pre, x ≤ f 0)
    (hpre_p : ∀ x ∈ pre, x ≤ p)
    (hfn : ∀ j < n, f j ≤ p)
    (hpq : p ≤ q) :
    List.Chain' (· ≤ ·) (pre ++ (List.range' 0 n).map f ++ [p, q]) := by
  apply chain'_le_append
  · apply chain'_le_append hpre (chain'_le_map_range' f hf n 0)
    intro x hx y hy
    cases n with
    | zero => simp at hy
    | succ m =>
      rw [List.range'_succ, List.map_cons, List.head?_cons] at hy
      simp only [Option.mem_def, Option.some.injEq] at hy
      subst hy
      exact hpre_le x hx
  · exact List.chain'_pair.mpr hpq
  · intro x hx y hy
    simp only [List.head?_cons, Option.mem_def, Option.some.injEq] at hy
    subst hy
    rcases List.mem_append.mp hx with hx | hx
    · exact hpre_p x hx
    · obtain ⟨j, hj, rfl⟩ := List.mem_map.mp hx
      obtain ⟨k, hk, rfl⟩ := List.mem_range'.mp hj
      exact hfn _ (by omega)

lemma scrapeLoop_events (env : Env) :
    ∀ (ids : List String) (n i : Nat) (s : RunState),
      progressList (scrapeLoop env ids n i s)
        = progressList s
          ++ (List.range' i ids.length).map (fun j => 15 + 80 * j / n) := by
  intro ids
  induction ids with
  | nil => intro n i s; simp [scrapeLoop]
  | cons vid rest ih =>
    intro n i s
    simp only [scrapeLoop]
    rw [ih]
    simp only [List.length_cons, List.range'_succ, List.map_cons]
    simp [progressList, emit]

lemma progressList_emit (s : RunState) (e : Progress) :
    progressList (emit s e) = progressList s ++ [e.progress] := by
  simp [progressList, emit]

lemma scraping_events (env : Env) (pid : String) (s : RunState) :
    progressList (processPlaylistWithScraping env pid s).1
      = progressList s ++ [5, 10, 15]
        ++ (List.range' 0 (effectiveVideoIds env pid).length).map
            (fun j => 15 + 80 * j / (effectiveVideoIds env pid).length)
        ++ [95, 100] := by
  unfold processPlaylistWithScraping
  have hne := effectiveVideoIds_ne_nil env pid
  rw [if_neg (by simp [List.length_eq_zero, hne])]
  dsimp only
  rw [progressList_emit, progressList_emit, scrapeLoop_events,
    progressList_emit, progressList_emit, progressList_emit]
  simp

lemma apiLoop_events_true (env : Env) :
    ∀ (items : List ApiItem) (n i : Nat) (s s' : RunState),
      apiLoop env items n i s = (s', true) →
      progressList s' = progressList s
        ++ (List.range' i items.length).map (fun j => 10 + 80 * j / n) := by
  intro items
  induction items with
  | nil =>
    intro n i s s' h
    simp only [apiLoop, Prod.mk.injEq] at h
    rw [← h.1]
    simp
  | cons item rest ih =>
    intro n i s s' h
    simp only [apiLoop] at h
    cases hdet : env.apiVideoDetails item.videoId with
    | error e => rw [hdet] at h; simp at h
    | ok det =>
      rw [hdet] at h
      dsimp only at h
      cases hst : env.apiVideoStats item.videoId with
      | error e => rw [hst] at h; simp at h
      | ok st =>
        rw [hst] at h
        dsimp only at h
        cases hd : parseDuration det.duration with
        | none => rw [hd] at h; simp at h
        | some dur =>
          rw [hd] at h
          dsimp only at h
          rw [ih n (i + 1) _ s' h]
          simp only [List.length_cons, List.range'_succ, List.map_cons]
          simp [progressList, emit]

lemma api_events_true (env : Env) (pid : String) (s s' : RunState)
    (h : processPlaylistWithApi env pid s = (s', true)) :
    ∃ n : Nat, 0 < n ∧
      progressList s' = progressList s ++ [5, 10]
        ++ (List.range' 0 n).map (fun j => 10 + 80 * j / n) ++ [90, 100] := by
  unfold processPlaylistWithApi at h
  cases hpl : env.apiPlaylistItems pid with
  | error e => rw [hpl] at h; simp at h
  | ok items =>
    rw [hpl] at h
    dsimp only at h
    by_cases hn : items.length = 0
    · rw [if_pos hn] at h; simp at h
    · rw [if_neg hn] at h
      refine ⟨items.length, by omega, ?_⟩
      split at h
      · simp at h
      · rename_i s1 heq
        simp only [Prod.mk.injEq] at h
        rw [← h.1]
        rw [progressList_emit, progressList_emit,
          apiLoop_events_true env items items.length 0 _ s1 heq,
          progressList_emit, progressList_emit]
        simp

lemma ramp_mono (base n : Nat) (j : Nat) :
    base + 80 * j / n ≤ base + 80 * (j + 1) / n := by
  have h1 : 80 * j / n ≤ 80 * (j + 1) / n :=
    Nat.div_le_div_right (by omega)
  omega

lemma ramp_le (base n : Nat) (hn : 0 < n) (j : Nat) (hj : j < n) :
    base + 80 * j / n ≤ base + 80 := by
  have h1 : 80 * j / n ≤ 80 * n / n :=
    Nat.div_le_div_right (by omega : 80 * j ≤ 80 * n)
  have h2 : 80 * n / n = 80 := Nat.mul_div_cancel 80 hn
  omega

/-- Claim C6 as amended: across one successful run WITHOUT a fallback restart
(no credential configured, or the primary run succeeds) the emitted progress
fractions form a nondecreasing sequence ending at 100; a fallback restart
re-emits 5 after higher values and breaks monotonicity. -/
theorem progress_monotone_amended (env : Env) (pid : String)
    (h : env.apiKey = "" ∨ (processPlaylistWithApi env pid initialRunState).2 = true) :
    List.Chain' (· ≤ ·) (progressList (processPlaylist env pid).1) ∧
    (progressList (processPlaylist env pid).1).getLast? = some 100 := by
  unfold processPlaylist
  by_cases hk : env.apiKey ≠ ""
  · rw [if_pos hk]
    have hsucc : (processPlaylistWithApi env pid initialRunState).2 = true := by
      rcases h with h | h
      · exact absurd h hk
      · exact h
    rcases ha : processPlaylistWithApi env pid initialRunState with ⟨s1, b⟩
    rw [ha] at hsucc
    simp only at hsucc
    subst hsucc
    dsimp only
    obtain ⟨n, hn, hev⟩ := api_events_true env pid initialRunState s1 ha
    rw [hev]
    have hpl0 : progressList initialRunState = [] := rfl
    rw [hpl0, List.nil_append]
    constructor
    · exact progress_chain [5, 10] (fun j => 10 + 80 * j / n) n 90 100
        (by rw [List.chain'_pair]; omega) (ramp_mono 10 n)
        (by intro x hx; simp at hx; rcases hx with rfl | rfl <;> simp)
        (by intro x hx; simp at hx; rcases hx with rfl | rfl <;> omega)
        (fun j hj => ramp_le 10 n hn j hj)
        (by omega)
    · exact getLast?_append_two _ 90 100
  · rw [if_neg hk]
    have hb := scraping_snd_true env pid initialRunState
    have hev := scraping_events env pid initialRunState
    rcases hs : processPlaylistWithScraping env pid initialRunState with ⟨s2, b2⟩
    rw [hs] at hb hev
    simp only at hb
    subst hb
    dsimp only
    have hpl0 : progressList initialRunState = [] := rfl
    rw [hev, hpl0, List.nil_append]
    have hn : 0 < (effectiveVideoIds env pid).length :=
      List.length_pos.mpr (effectiveVideoIds_ne_nil env pid)
    constructor
    · exact progress_chain [5, 10, 15]
        (fun j => 15 + 80 * j / (effectiveVideoIds env pid).length)
        (effectiveVideoIds env pid).length 95 100
        (by rw [List.chain'_cons, List.chain'_pair]; omega) (ramp_mono 15 _)
        (by intro x hx; simp at hx; rcases hx with rfl | rfl | rfl <;> simp)
        (by intro x hx; simp at hx; rcases hx with rfl | rfl | rfl <;> omega)
        (fun j hj => ramp_le 15 _ hn j hj)
        (by omega)
    · exact getLast?_append_two _ 95 100

/-- Witness for the amended C6 at a concrete environment (fallback-only
run). -/
theorem progress_monotone_amended_witness :
    List.Chain' (· ≤ ·) (progressList (processPlaylist envAllCapture "PLm").1) ∧
    (progressList (processPlaylist envAllCapture "PLm").1).getLast? = some 100 :=
  progress_monotone_amended envAllCapture "PLm" (Or.inl rfl)

end YTX
